import Mathlib

/-!
Shallow embedding of the two Ansible modules of the
rangeid/bitbucketserver collection:
plugins/modules/pullrequest.py and plugins/modules/branch.py.

The modules run single-threaded: they issue HTTP requests through
Ansible's fetch_url, mutate a local result dict, and terminate either
through module.exit_json(**result) or module.fail_json(...).  We model a
computation as a state-passing function over a state that records
result["changed"], the queue of remote responses still to be served by
the transport, the trace of requests issued so far, and the warnings
emitted via module.warn.  Termination through fail_json is an abort that
no handler catches (fail_json raises SystemExit, which "except
Exception" does not intercept); a Python exception is an abort that the
per-action "except Exception as e" handlers in main do catch.
-/

namespace Bitbucket

/-- HTTP method of a request issued through fetch_url. -/
inductive Method where
  | GET
  | POST
  | DELETE
deriving DecidableEq, Repr

/-- The JSON body attached to a request, modelled structurally: each
constructor mirrors one of the payload dicts built in the source. -/
inductive ReqBody where
  /-- The dict {"version": v} sent by mergePullRequest and
  deletePullRequest. -/
  | versionBody (version : Int)
  /-- The pull-request creation payload of createPullRequest
  ({title, description, fromRef, toRef, locked: False}). -/
  | createBody (title description sourceBranch destinationBranch : String)
  /-- The approval payload {"user": {"name": n}, "approved": true,
  "status": "APPROVED"}. -/
  | approveBody (name : String)
  /-- The branch-creation payload {"name": n, "startPoint": s} of
  branch.py. -/
  | branchBody (name startPoint : String)
  /-- The branch-deletion payload {"name": n} of branch.py. -/
  | branchDeleteBody (name : String)
deriving DecidableEq, Repr

/-- One request handed to fetch_url: method, absolute URL, optional
JSON body. -/
structure Request where
  method : Method
  url : String
  body : Option ReqBody
deriving DecidableEq, Repr

/-- The "existingPullRequest" object embedded in a 409 error entry of
the pull-request creation endpoint. -/
structure ErrPR where
  id : Int
  version : Int
deriving DecidableEq, Repr

/-- One entry of the "errors" array of a Bitbucket error payload. -/
structure RemoteError where
  message : String
  existingPullRequest : Option ErrPR
deriving DecidableEq, Repr

/-- A branch reference inside a pull-request record; the code reads
only its displayId. -/
structure PRRef where
  displayId : String
deriving DecidableEq, Repr

/-- A remote pull-request record as consumed by the modules. -/
structure PRRecord where
  id : Int
  version : Int
  state : String
  title : String
  fromRef : PRRef
  toRef : PRRef
deriving DecidableEq, Repr

/-- The parsed shape of a response body.  errorsBody models a JSON dict
{"errors": [...]}, listBody models {"values": [...]} as returned by the
pull-request list endpoint, malformed models a body json.loads cannot
parse. -/
inductive Body where
  | errorsBody (errors : List RemoteError)
  | listBody (values : List PRRecord)
  | malformed
deriving DecidableEq, Repr

/-- A normalized transport response: HTTP status plus body.  The body
stands for both info["body"] and response.read() of fetch_url. -/
structure Response where
  status : Int
  body : Body
deriving DecidableEq, Repr

/-- Python exceptions that the embedded code can raise. -/
inductive PyExc where
  /-- NameError from evaluating an unbound name. -/
  | nameError (n : String)
  /-- json.JSONDecodeError from json.loads on an unparseable body. -/
  | jsonDecodeError
  /-- KeyError from a missing dict key. -/
  | keyError (k : String)
  /-- IndexError from indexing an empty errors array. -/
  | indexError
  /-- RecursionError, Python's recursion-depth guard. -/
  | recursionError
deriving DecidableEq, Repr

/-- The rendering of an exception inside an f-string, as in
fail_json(msg=f"... error: {e}"). -/
def excMsg : PyExc → String
  | PyExc.nameError n => "name \x27" ++ n ++ "\x27 is not defined"
  | PyExc.jsonDecodeError => "Expecting value: line 1 column 1 (char 0)"
  | PyExc.keyError k => "\x27" ++ k ++ "\x27"
  | PyExc.indexError => "list index out of range"
  | PyExc.recursionError => "maximum recursion depth exceeded"

/-- The observable content of one module.fail_json call: the msg kwarg,
the changed kwarg (false when absent, as the result dict is never
passed to fail_json), and the status_code / return_code kwarg when
given. -/
structure Failure where
  msg : String
  changed : Bool
  code : Option Int
deriving DecidableEq, Repr

/-- The two abort channels: fail_json terminates the process and is
never caught; a Python exception is caught by the per-action handlers
in main. -/
inductive Abort where
  | failJson (f : Failure)
  | exc (e : PyExc)
deriving DecidableEq, Repr

/-- The mutable state of one invocation: result["changed"], the queue
of responses the transport will serve, the trace of requests issued,
and the warnings emitted. -/
structure St where
  changed : Bool
  pending : List Response
  trace : List Request
  warnings : List String
deriving DecidableEq, Repr

/-- A computation over the invocation state that either returns a value
or aborts. -/
def M (α : Type) : Type := St → St × Except Abort α

def mPure {α : Type} (a : α) : M α := fun s => (s, Except.ok a)

def mBind {α β : Type} (x : M α) (f : α → M β) : M β := fun s =>
  match x s with
  | (s1, Except.ok a) => f a s1
  | (s1, Except.error e) => (s1, Except.error e)

/-- module.fail_json(msg=m): aborts the invocation; no changed or
status kwarg given. -/
def failJson {α : Type} (m : String) : M α :=
  fun s => (s, Except.error (Abort.failJson ⟨m, false, none⟩))

/-- module.fail_json with explicit changed and status/return-code
kwargs. -/
def failJsonWith {α : Type} (m : String) (c : Bool) (sc : Option Int) : M α :=
  fun s => (s, Except.error (Abort.failJson ⟨m, c, sc⟩))

/-- raise e -/
def raiseExc {α : Type} (e : PyExc) : M α :=
  fun s => (s, Except.error (Abort.exc e))

/-- result["changed"] = True -/
def setChanged : M Unit := fun s => ({ s with changed := true }, Except.ok ())

/-- module.warn(m) -/
def warn (m : String) : M Unit :=
  fun s => ({ s with warnings := s.warnings ++ [m] }, Except.ok ())

/-- A response to a request that the environment does not answer,
modelling a transport-level failure: fetch_url reports status -1 and no
parseable body. -/
def transportFail : Response := ⟨-1, Body.malformed⟩

/-- fetch_url: records the request in the trace and serves the next
pending response. -/
def fetchUrl (req : Request) : M Response := fun s =>
  match s.pending with
  | [] => ({ s with trace := s.trace ++ [req] }, Except.ok transportFail)
  | r :: rest =>
      ({ s with pending := rest, trace := s.trace ++ [req] }, Except.ok r)

/-- try: body except Exception as e: handler(e) — catches Python
exceptions but not the SystemExit of fail_json. -/
def tryE (body : M Unit) (handler : PyExc → M Unit) : M Unit := fun s =>
  match body s with
  | (s1, Except.error (Abort.exc e)) => handler e s1
  | other => other

/-- The caller-visible outcome of one invocation. -/
inductive RunResult where
  /-- module.exit_json(**result) with the final result["changed"]. -/
  | exited (changed : Bool)
  /-- module.fail_json: message, reported changed flag, optional status
  code kwarg. -/
  | failed (msg : String) (changed : Bool) (code : Option Int)
  /-- an exception escaped main (never produced by these modules). -/
  | crashed (e : PyExc)
deriving DecidableEq, Repr

/-- Initial state of an invocation: result = {"changed": False}, the
given queue of responses, empty trace, no warnings. -/
def initSt (env : List Response) : St := ⟨false, env, [], []⟩

/-- Map the final state of a module computation to the invocation
outcome (exit_json on normal return, the fail_json content on abort). -/
def finish {α : Type} (r : St × Except Abort α) : RunResult × St :=
  match r with
  | (s, Except.ok _) => (RunResult.exited s.changed, s)
  | (s, Except.error (Abort.failJson f)) => (RunResult.failed f.msg f.changed f.code, s)
  | (s, Except.error (Abort.exc e)) => (RunResult.crashed e, s)

/-- Run a module body on a fresh invocation state. -/
def runM (m : M Unit) (env : List Response) : RunResult × St :=
  finish (m (initSt env))

/-- json.loads applied to a response body: returns the parsed value or
raises JSONDecodeError. -/
def jsonLoads (b : Body) : M Body :=
  match b with
  | Body.malformed => raiseExc PyExc.jsonDecodeError
  | other => mPure other

/-- error_data["errors"][0]: the first entry of the errors array,
raising KeyError / IndexError as Python would. -/
def errFirst (b : Body) : M RemoteError :=
  match b with
  | Body.errorsBody (e :: _) => mPure e
  | Body.errorsBody [] => raiseExc PyExc.indexError
  | Body.listBody _ => raiseExc (PyExc.keyError "errors")
  | Body.malformed => raiseExc PyExc.jsonDecodeError

/-- json.loads(body) followed by ["errors"][0]["message"], the error
extraction pattern shared by every non-success branch. -/
def errFirstMsg (b : Body) : M String :=
  mBind (jsonLoads b) (fun d => mBind (errFirst d) (fun e => mPure e.message))

/-- ["existingPullRequest"] on an errors entry, raising KeyError when
absent. -/
def getExisting (e : RemoteError) : M ErrPR :=
  match e.existingPullRequest with
  | some x => mPure x
  | none => raiseExc (PyExc.keyError "existingPullRequest")

/-- prs["values"]: the values array of the list response, raising
KeyError on any other dict shape. -/
def getValues (b : Body) : M (List PRRecord) :=
  match b with
  | Body.listBody vs => mPure vs
  | _ => raiseExc (PyExc.keyError "values")

/-!
Embedding of plugins/modules/pullrequest.py.
-/

/-- The module parameters of pullrequest.py as read in main. -/
structure Params where
  server : String
  project : String
  repository : String
  to_branch : String
  from_branch : String
  title : String
  description : String
  author : String
  username : String
  password : String
  actions : List String
  ignore_existing_on_create : Bool
deriving DecidableEq, Repr

/-- urllib.parse.quote, an external library function; no claim depends
on the encoding, so it is modelled as the identity embedding of the
title into the query string. -/
def urlQuote (s : String) : String := s

/-- URL of the filtered pull-request list endpoint (getPullRequests). -/
def listURL (server project_key repository_slug title : String) : String :=
  server ++ "/rest/api/latest/projects/" ++ project_key ++ "/repos/" ++
    repository_slug ++ "/pull-requests?filterText=" ++ urlQuote title

/-- URL of the merge endpoint (mergePullRequest). -/
def mergeURL (server project_key repository_slug : String) (pull_request_id : Int) : String :=
  server ++ "/rest/api/1.0/projects/" ++ project_key ++ "/repos/" ++
    repository_slug ++ "/pull-requests/" ++ toString pull_request_id ++ "/merge"

/-- URL of the pull-request deletion endpoint (deletePullRequest). -/
def prDeleteURL (server project_key repository_slug : String) (pull_request_id : Int) : String :=
  server ++ "/rest/api/latest/projects/" ++ project_key ++ "/repos/" ++
    repository_slug ++ "/pull-requests/" ++ toString pull_request_id

/-- URL of the approval endpoint, shared by approvePullRequest and the
inline approve block of main. -/
def approveURL (server project_key repository_slug : String) (pull_request_id : Int) : String :=
  server ++ "/rest/api/latest/projects/" ++ project_key ++ "/repos/" ++
    repository_slug ++ "/pull-requests/" ++ toString pull_request_id ++ "/approve"

/-- URL of the pull-request creation endpoint (createPullRequest). -/
def createURL (server project_key repository_slug : String) : String :=
  server ++ "/rest/api/1.0/projects/" ++ project_key ++ "/repos/" ++
    repository_slug ++ "/pull-requests"

/-- "Access denied for user {u}, verify username and password", the 401
message used by every operation except deletePullRequest and the inline
approve block. -/
def authMsg (u : String) : String :=
  "Access denied for user " ++ u ++ ", verify username and password"

/-- "Access denied for user {u}", the 403 message. -/
def forbMsg (u : String) : String := "Access denied for user " ++ u

/-- The 401 message of deletePullRequest, which ends with a period. -/
def delAuthMsg (u : String) : String :=
  "Access denied for user " ++ u ++ ", verify username and password."

/-- The 401 message of the inline approve block of main: its source
line is continued with a backslash inside the f-string, so the 24
spaces of the continuation line's indentation are part of the
message. -/
def approveMainAuthMsg (u : String) : String :=
  "Access denied for user " ++ u ++ ", verify username" ++
    "                        " ++ "and password"

/-- The not-found message of the approve block. -/
def noMatchTitleMsg (t : String) : String :=
  "Unable to find a PR that matches title <" ++ t ++ ">"

/-- The not-found message of the merge block; as with
approveMainAuthMsg, a backslash continuation embeds the 24 spaces of
the next line's indentation into the message. -/
def noMatchParamsMsg (t : String) : String :=
  "Unable to find a PR that matches requested " ++
    "                        " ++ "parameters (title=" ++ t ++ ")"

/-- getPullRequests: GET on the filtered list endpoint, the 401/403
checks, then json.loads of the body. -/
def getPullRequests (server username password project_key repository_slug title : String) :
    M Body :=
  mBind (fetchUrl ⟨Method.GET, listURL server project_key repository_slug title, none⟩)
    (fun r =>
  mBind (if r.status = 401 then failJson (authMsg username) else mPure ()) (fun _ =>
  mBind (if r.status = 403 then failJson (forbMsg username) else mPure ()) (fun _ =>
  jsonLoads r.body)))

/-- mergePullRequest: POST {"version": v} to the merge endpoint, then
the 401/403/200/409/else chain of the source. -/
def mergePullRequest (server username password project_key repository_slug : String)
    (pull_request_id version : Int) : M Unit :=
  mBind (fetchUrl ⟨Method.POST, mergeURL server project_key repository_slug pull_request_id,
      some (ReqBody.versionBody version)⟩) (fun r =>
  if r.status = 401 then failJson (authMsg username)
  else if r.status = 403 then failJson (forbMsg username)
  else if r.status = 200 then
    mBind setChanged (fun _ =>
      warn ("Pull request " ++ toString pull_request_id ++ " successfully merged."))
  else if r.status = 409 then
    mBind (errFirstMsg r.body) (fun m =>
      failJsonWith ("Unable to merge the pull request #" ++ toString pull_request_id ++
        ". " ++ m) false (some r.status))
  else
    mBind (errFirstMsg r.body) (fun m =>
      failJson ("Unable to merge the pull request: " ++ m)))

/-- deletePullRequest: DELETE {"version": v}, then the
401/403/404/204/else chain of the source. -/
def deletePullRequest (server username password project_key repository_slug : String)
    (pull_request_id version : Int) : M Unit :=
  mBind (fetchUrl ⟨Method.DELETE, prDeleteURL server project_key repository_slug pull_request_id,
      some (ReqBody.versionBody version)⟩) (fun r =>
  if r.status = 401 then failJson (delAuthMsg username)
  else if r.status = 403 then failJson (forbMsg username)
  else if r.status = 404 then
    failJson ("Pull request #" ++ toString pull_request_id ++ " doesn\x27t exist.")
  else if r.status = 204 then
    mBind (warn ("Pull request #" ++ toString pull_request_id ++ " deleted.")) (fun _ =>
      setChanged)
  else
    mBind (errFirstMsg r.body) (fun m =>
      failJsonWith ("Error deleting pull request #" ++ toString pull_request_id ++ ": " ++ m)
        false (some r.status)))

/-- Python equality between an integer status and a list literal, as
written in the two approval status checks (info["status"] == [200,
201]): an int never equals a list, so the comparison is always
False. -/
def intEqList (s : Int) (l : List Int) : Bool := false

/-- approvePullRequest, the standalone function (never called from
main): POST the approval payload built from username, the 401/403
checks, then the status == [200, 201] test of the source. -/
def approvePullRequest (server username password project_key repository_slug : String)
    (pull_request_id : Int) : M Unit :=
  mBind (fetchUrl ⟨Method.POST, approveURL server project_key repository_slug pull_request_id,
      some (ReqBody.approveBody username)⟩) (fun r =>
  if r.status = 401 then failJson (authMsg username)
  else if r.status = 403 then failJson (forbMsg username)
  else if intEqList r.status [200, 201] then setChanged
  else
    mBind (errFirstMsg r.body) (fun m =>
      failJson ("Error approving pull request: " ++ m)))

/-- createPullRequest's body, fuelled: the Nat argument models Python's
recursion-depth limit.  On 201 it records the change; on 409 with
ignore_existing_on_create it parses the error payload, deletes the
embedded existing pull request, and recurses — the recursive call in
the source omits ignore_existing_on_create, so it recurses with the
default False; on 409 without the flag it calls fail_json with
changed=True and the server's message; any other status fails with the
server's message. -/
def createPullRequestAux (server username password project_key repository_slug title
    description source_branch destination_branch : String) :
    Nat → Bool → M Unit
  | 0, _ => raiseExc PyExc.recursionError
  | Nat.succ n, ignore_existing_on_create =>
    mBind (fetchUrl ⟨Method.POST, createURL server project_key repository_slug,
        some (ReqBody.createBody title description source_branch destination_branch)⟩)
      (fun r =>
    if r.status = 201 then
      mBind setChanged (fun _ => warn "Pull request successfully created.")
    else if r.status = 409 then
      (if ignore_existing_on_create = true then
        mBind (jsonLoads r.body) (fun d =>
        mBind (errFirst d) (fun e =>
        mBind (getExisting e) (fun ex =>
        mBind (warn (e.message ++ ". Deleting #" ++ toString ex.id ++ " as requested."))
          (fun _ =>
        mBind (deletePullRequest server username password project_key repository_slug
          ex.id ex.version) (fun _ =>
        createPullRequestAux server username password project_key repository_slug title
          description source_branch destination_branch n false)))))
      else
        mBind (errFirstMsg r.body) (fun m => failJsonWith m true none))
    else
      mBind (errFirstMsg r.body) (fun m =>
        failJson ("Unable to create the pull request. " ++ m)))

/-- createPullRequest with Python's default recursion limit of 1000 as
fuel; the limit is never reached, since the single recursive call
passes ignore_existing_on_create = False, which cannot recurse. -/
def createPullRequest (server username password project_key repository_slug title
    description source_branch destination_branch : String)
    (ignore_existing_on_create : Bool) : M Unit :=
  createPullRequestAux server username password project_key repository_slug title
    description source_branch destination_branch 1000 ignore_existing_on_create

/-- Python's str.startswith, modelled as a prefix test on the
character list of the string. -/
def pyStartswith (s pre : String) : Bool := pre.data.isPrefixOf s.data

/-- The local names bound by assignment in the scope of pullrequest
main; fetch_url's headers argument in the approve block is looked up
against these. -/
def mainLocals : List String :=
  ["argument_spec", "module", "server", "project", "repository", "branch_to",
   "branch_from", "title", "description", "ignore_existing_on_create", "actions",
   "author", "username", "password", "result", "prs", "mypr", "pr", "data", "url",
   "response", "info", "error_data", "e"]

/-- Evaluate a name in the scope of pullrequest main: raises NameError
when the name is not bound there. -/
def loadName (n : String) : M Unit :=
  if mainLocals.contains n then mPure () else raiseExc (PyExc.nameError n)

/-- The exact-match condition of the finder loops in main's approve and
merge blocks: state OPEN, exact title, exact source and destination
display ids. -/
def prMatches (title from_branch to_branch : String) (pr : PRRecord) : Bool :=
  pr.state == "OPEN" && pr.title == title &&
    pr.fromRef.displayId == from_branch && pr.toRef.displayId == to_branch

/-- The finder loop of main: first record of the list satisfying
prMatches, none when the loop leaves mypr == {}. -/
def findPR (vs : List PRRecord) (title from_branch to_branch : String) : Option PRRecord :=
  vs.find? (prMatches title from_branch to_branch)

/-- The inline approve block of main: list, find, then the approval
POST — whose argument list evaluates the name headers, unbound in
main's scope — followed by the source's status checks. -/
def approveStep (p : Params) : M Unit :=
  mBind (getPullRequests p.server p.username p.password p.project p.repository p.title)
    (fun prs =>
  mBind (getValues prs) (fun vals =>
  match findPR vals p.title p.from_branch p.to_branch with
  | none => failJson (noMatchTitleMsg p.title)
  | some mypr =>
    mBind (loadName "headers") (fun _ =>
    mBind (fetchUrl ⟨Method.POST, approveURL p.server p.project p.repository mypr.id,
        some (ReqBody.approveBody p.author)⟩) (fun r =>
    if r.status = 401 then failJson (approveMainAuthMsg p.username)
    else if r.status = 403 then failJson (forbMsg p.username)
    else if intEqList r.status [200, 201] then setChanged
    else
      mBind (errFirstMsg r.body) (fun m =>
        failJson ("Error approving pull request: " ++ m))))))

/-- The inline merge block of main: list, find, then mergePullRequest
with the matched record's id and version. -/
def mergeStep (p : Params) : M Unit :=
  mBind (getPullRequests p.server p.username p.password p.project p.repository p.title)
    (fun prs =>
  mBind (getValues prs) (fun vals =>
  match findPR vals p.title p.from_branch p.to_branch with
  | none => failJson (noMatchParamsMsg p.title)
  | some mypr =>
    mergePullRequest p.server p.username p.password p.project p.repository
      mypr.id mypr.version))

/-- main of pullrequest.py: the https scheme check, then the create,
approve and merge blocks in order, each wrapped in its per-action
exception handler. -/
def prMain (p : Params) : M Unit :=
  mBind (if pyStartswith p.server "https://" = false
      then failJson "Server must be https://<servername>" else mPure ()) (fun _ =>
  mBind (if p.actions.contains "create" then
      tryE (createPullRequest p.server p.username p.password p.project p.repository
          p.title p.description p.from_branch p.to_branch p.ignore_existing_on_create)
        (fun e => failJson ("Create PR request error: " ++ excMsg e))
    else mPure ()) (fun _ =>
  mBind (if p.actions.contains "approve" then
      tryE (approveStep p) (fun e => failJson ("Approve PR error: " ++ excMsg e))
    else mPure ()) (fun _ =>
  if p.actions.contains "merge" then
    tryE (mergeStep p) (fun e => failJson ("Merge PR error: " ++ excMsg e))
  else mPure ())))

/-- Run pullrequest main on an environment of responses. -/
def runPR (p : Params) (env : List Response) : RunResult × St := runM (prMain p) env

/-- The caller-visible outcome of one pullrequest invocation. -/
def prOutcome (p : Params) (env : List Response) : RunResult := (runPR p env).1

/-- The requests issued during one pullrequest invocation, in order. -/
def prTrace (p : Params) (env : List Response) : List Request := (runPR p env).2.trace

/-!
Embedding of plugins/modules/branch.py.
-/

/-- The module parameters of branch.py as read in its main. -/
structure BranchParams where
  server : String
  project : String
  repository : String
  username : String
  password : String
  branch : String
  from_branch : String
  state : String
deriving DecidableEq, Repr

/-- URL of the branch-utils branches endpoint, shared by branch
creation and deletion. -/
def branchURL (server project repository : String) : String :=
  server ++ "/rest/branch-utils/1.0/projects/" ++ project ++ "/repos/" ++
    repository ++ "/branches"

/-- The state == present block of branch main: POST {name, startPoint},
401/403 checks, status in [200, 201] sets changed, anything else fails
with the remote error message. -/
def branchCreateStep (p : BranchParams) : M Unit :=
  mBind (fetchUrl ⟨Method.POST, branchURL p.server p.project p.repository,
      some (ReqBody.branchBody p.branch p.from_branch)⟩) (fun r =>
  if r.status = 401 then failJson (authMsg p.username)
  else if r.status = 403 then failJson (forbMsg p.username)
  else if [(200 : Int), 201].contains r.status then setChanged
  else
    mBind (errFirstMsg r.body) (fun m =>
      failJson ("Error creating new branch: " ++ m)))

/-- The state == absent block of branch main: DELETE {name}, 401/403
checks, status in [204] sets changed, anything else fails with the
remote error message. -/
def branchDeleteStep (p : BranchParams) : M Unit :=
  mBind (fetchUrl ⟨Method.DELETE, branchURL p.server p.project p.repository,
      some (ReqBody.branchDeleteBody p.branch)⟩) (fun r =>
  if r.status = 401 then failJson (authMsg p.username)
  else if r.status = 403 then failJson (forbMsg p.username)
  else if [(204 : Int)].contains r.status then setChanged
  else
    mBind (errFirstMsg r.body) (fun m =>
      failJson ("Error deleting branch: " ++ m)))

/-- main of branch.py: the https scheme check, then the present and
absent blocks, each wrapped in its exception handler. -/
def branchMain (p : BranchParams) : M Unit :=
  mBind (if pyStartswith p.server "https://" = false
      then failJson "Server must be https://<servername>" else mPure ()) (fun _ =>
  mBind (if p.state = "present" then
      tryE (branchCreateStep p) (fun e => failJson ("Request error: " ++ excMsg e))
    else mPure ()) (fun _ =>
  if p.state = "absent" then
    tryE (branchDeleteStep p) (fun e => failJson ("Request error: " ++ excMsg e))
  else mPure ()))

/-- Run branch main on an environment of responses. -/
def runBranch (p : BranchParams) (env : List Response) : RunResult × St :=
  runM (branchMain p) env

/-- The caller-visible outcome of one branch invocation. -/
def branchOutcome (p : BranchParams) (env : List Response) : RunResult :=
  (runBranch p env).1

/-- The requests issued during one branch invocation, in order. -/
def branchTrace (p : BranchParams) (env : List Response) : List Request :=
  (runBranch p env).2.trace

/-- A merge request: a POST carrying a {"version": v} body; only
mergePullRequest issues requests of this shape. -/
def isMergeReq (r : Request) : Bool :=
  match r.method, r.body with
  | Method.POST, some (ReqBody.versionBody _) => true
  | _, _ => false

/-- A pull-request creation request. -/
def isCreateReq (r : Request) : Bool :=
  match r.body with
  | some (ReqBody.createBody _ _ _ _) => true
  | _ => false

/-- Number of pull-request creation requests in a trace. -/
def createCount (l : List Request) : Nat := (l.filter isCreateReq).length

/-!
Shared lemmas.
-/

theorem findPR_eq_filter_head (vs : List PRRecord) (t f b : String) :
    findPR vs t f b = (vs.filter (prMatches t f b)).head? := by
  unfold findPR
  induction vs with
  | nil => rfl
  | cons a l ih =>
    cases h : prMatches t f b a with
    | true =>
      rw [List.find?_cons_of_pos _ h, List.filter_cons_of_pos h, List.head?_cons]
    | false =>
      rw [List.find?_cons_of_neg _ (by simp [h]), List.filter_cons_of_neg (by simp [h]), ih]

theorem finish_state {α : Type} (r : St × Except Abort α) : (finish r).2 = r.1 := by
  rcases r with ⟨s, res⟩
  rcases res with e | a
  · rcases e with f | ex <;> rfl
  · rfl

theorem prTrace_eq (p : Params) (env : List Response) :
    prTrace p env = ((prMain p) (initSt env)).1.trace := by
  unfold prTrace runPR runM
  rw [finish_state]

theorem mBind_state_preserving {α β : Type} (x : M α) (k : α → M β)
    (hk : ∀ a s, (k a s).1 = s) (s : St) : ((mBind x k) s).1 = (x s).1 := by
  unfold mBind
  rcases hx : x s with ⟨s1, res⟩
  rcases res with e | a
  · rfl
  · simp [hk]

theorem tryE_failJson_state (m : M Unit) (f : PyExc → String) (s : St) :
    ((tryE m (fun e => failJson (f e))) s).1 = (m s).1 := by
  unfold tryE
  rcases hm : m s with ⟨s1, res⟩
  rcases res with e | a
  · rcases e with fj | ex <;> simp [failJson]
  · simp

theorem mergePullRequest_trace (srv u pw pk rs : String) (i v : Int) (s : St) :
    ((mergePullRequest srv u pw pk rs i v) s).1.trace =
      s.trace ++ [⟨Method.POST, mergeURL srv pk rs i, some (ReqBody.versionBody v)⟩] := by
  unfold mergePullRequest
  rcases hp : s.pending with _ | ⟨⟨stat, b⟩, rest⟩
  · simp [mBind, fetchUrl, hp, transportFail, failJson, failJsonWith, mPure, setChanged,
      warn, errFirstMsg, jsonLoads, errFirst, raiseExc]
  · rcases b with es | vs | _ <;> try rcases es with _ | ⟨e, es2⟩
    all_goals
      simp only [mBind, fetchUrl, hp]
      split_ifs <;>
        simp [failJson, failJsonWith, mPure, setChanged, warn, errFirstMsg,
          jsonLoads, errFirst, raiseExc, mBind]

theorem deletePullRequest_trace (srv u pw pk rs : String) (i v : Int) (s : St) :
    ((deletePullRequest srv u pw pk rs i v) s).1.trace =
      s.trace ++ [⟨Method.DELETE, prDeleteURL srv pk rs i, some (ReqBody.versionBody v)⟩] := by
  unfold deletePullRequest
  rcases hp : s.pending with _ | ⟨⟨stat, b⟩, rest⟩
  · simp [mBind, fetchUrl, hp, transportFail, failJson, failJsonWith, mPure, setChanged,
      warn, errFirstMsg, jsonLoads, errFirst, raiseExc]
  · rcases b with es | vs | _ <;> try rcases es with _ | ⟨e, es2⟩
    all_goals
      simp only [mBind, fetchUrl, hp]
      split_ifs <;>
        simp [failJson, failJsonWith, mPure, setChanged, warn, errFirstMsg,
          jsonLoads, errFirst, raiseExc, mBind]

theorem createAux_false_trace (srv u pw pk rs t d sb db : String) (n : Nat) (s : St) :
    ((createPullRequestAux srv u pw pk rs t d sb db (Nat.succ n) false) s).1.trace =
      s.trace ++
        [⟨Method.POST, createURL srv pk rs, some (ReqBody.createBody t d sb db)⟩] := by
  unfold createPullRequestAux
  rcases hp : s.pending with _ | ⟨⟨stat, b⟩, rest⟩
  · simp [mBind, fetchUrl, hp, transportFail, failJson, failJsonWith, mPure, setChanged,
      warn, errFirstMsg, jsonLoads, errFirst, raiseExc]
  · rcases b with es | vs | _ <;> try rcases es with _ | ⟨e, es2⟩
    all_goals
      simp only [mBind, fetchUrl, hp]
      split_ifs <;>
        simp_all [failJson, failJsonWith, mPure, setChanged, warn, errFirstMsg,
          jsonLoads, errFirst, raiseExc, mBind]

theorem createCount_append (a b : List Request) :
    createCount (a ++ b) = createCount a + createCount b := by
  simp [createCount, List.filter_append]

theorem delete_then_retry_count (srv u pw pk rs t d sb db : String) (i v : Int) (s : St) :
    createCount (((mBind (deletePullRequest srv u pw pk rs i v)
        (fun _ => createPullRequestAux srv u pw pk rs t d sb db 999 false)) s).1.trace) ≤
      createCount s.trace + 1 := by
  have hd := deletePullRequest_trace srv u pw pk rs i v s
  unfold mBind
  rcases hdel : deletePullRequest srv u pw pk rs i v s with ⟨s3, res⟩
  rw [hdel] at hd
  rcases res with e | a
  · simp only
    rw [hd, createCount_append]
    simp [createCount, isCreateReq]
  · simp only
    rw [show (999 : Nat) = Nat.succ 998 from rfl,
      createAux_false_trace srv u pw pk rs t d sb db 998 s3, hd,
      createCount_append, createCount_append]
    simp [createCount, isCreateReq]

/-!
The claims.
-/

/-- Claim C1, code behavior at the failing input: a create that
receives 409 with ignore_existing_on_create = False calls fail_json
with the server's message and with the kwarg changed=True, so the
invocation reports changed: true although no mutating request returned
a success status (the claim, following the spec, requires changed:
false here). -/
theorem create_conflict_409_reports_changed_true :
    prOutcome
      ⟨"https://bb", "PRJ", "repo", "master", "feature", "Release 1.2", "d",
        "alice", "joe", "pw", ["create"], false⟩
      [⟨409, Body.errorsBody [⟨"Only one pull request may be open for a given source and target branch", none⟩]⟩] =
      RunResult.failed "Only one pull request may be open for a given source and target branch"
        true none :=
  rfl

/-- Claim C2, code behavior at the failing input: with a matching OPEN
pull request resolved and a 200 approval response queued, the approve
step of main fails with the Approve PR error message before issuing
the approval POST (only the list GET is traced and changed stays
false); moreover the standalone approvePullRequest treats a 200
response as a failure, since its status check compares the integer
status against the list literal [200, 201]. -/
theorem approve_200_never_sets_changed :
    prOutcome
        ⟨"https://bb", "PRJ", "repo", "master", "feature", "Release 1.2", "d",
          "alice", "joe", "pw", ["approve"], false⟩
        [⟨200, Body.listBody [⟨42, 5, "OPEN", "Release 1.2", ⟨"feature"⟩, ⟨"master"⟩⟩]⟩,
         ⟨200, Body.errorsBody []⟩] =
      RunResult.failed ("Approve PR error: " ++ excMsg (PyExc.nameError "headers"))
        false none ∧
    prTrace
        ⟨"https://bb", "PRJ", "repo", "master", "feature", "Release 1.2", "d",
          "alice", "joe", "pw", ["approve"], false⟩
        [⟨200, Body.listBody [⟨42, 5, "OPEN", "Release 1.2", ⟨"feature"⟩, ⟨"master"⟩⟩]⟩,
         ⟨200, Body.errorsBody []⟩] =
      [⟨Method.GET, listURL "https://bb" "PRJ" "repo" "Release 1.2", none⟩] ∧
    (runM (approvePullRequest "https://bb" "joe" "pw" "PRJ" "repo" 42)
        [⟨200, Body.errorsBody [⟨"boom", none⟩]⟩]).1 =
      RunResult.failed "Error approving pull request: boom" false none :=
  ⟨rfl, rfl, rfl⟩

/-- Claim C5: the finder's eligible set is exactly the set of records
with state OPEN, exact title, exact source and destination display
ids, and the record chosen is the head of that set in list order; the
finder is a pure function of the list, hence deterministic across
repeated calls on the same input. -/
theorem finder_first_exact_match :
    ∀ (vs : List PRRecord) (t f b : String),
      (∀ pr : PRRecord, pr ∈ vs.filter (prMatches t f b) ↔
        (pr ∈ vs ∧ pr.state = "OPEN" ∧ pr.title = t ∧
          pr.fromRef.displayId = f ∧ pr.toRef.displayId = b)) ∧
      findPR vs t f b = (vs.filter (prMatches t f b)).head? := by
  intro vs t f b
  refine ⟨fun pr => ?_, findPR_eq_filter_head vs t f b⟩
  simp [List.mem_filter, prMatches, and_assoc]

/-- Claim C9: an invocation of either module whose server URL does not
start with the https scheme fails with the scheme message and an empty
request trace: no network request precedes the scheme check. -/
theorem scheme_check_precedes_requests :
    ∀ (p : Params) (bp : BranchParams) (env benv : List Response),
      pyStartswith p.server "https://" = false →
      pyStartswith bp.server "https://" = false →
      (prOutcome p env = RunResult.failed "Server must be https://<servername>" false none ∧
       prTrace p env = [] ∧
       branchOutcome bp benv =
         RunResult.failed "Server must be https://<servername>" false none ∧
       branchTrace bp benv = []) := by
  intro p bp env benv h hb
  refine ⟨?_, ?_, ?_, ?_⟩ <;>
    simp [prOutcome, prTrace, branchOutcome, branchTrace, runPR, runBranch, runM,
      prMain, branchMain, h, hb, mBind, mPure, failJson, finish, initSt]

/-- Witness for scheme_check_precedes_requests: a concrete plain-http
server URL is rejected with no request issued. -/
theorem scheme_check_precedes_requests_witness :
    pyStartswith "http://bb" "https://" = false ∧
    prOutcome ⟨"http://bb", "PRJ", "repo", "master", "feature", "t", "d", "a",
        "joe", "pw", ["create"], false⟩ [] =
      RunResult.failed "Server must be https://<servername>" false none :=
  ⟨by decide,
    (scheme_check_precedes_requests
      ⟨"http://bb", "PRJ", "repo", "master", "feature", "t", "d", "a",
        "joe", "pw", ["create"], false⟩
      ⟨"http://bb", "PRJ", "repo", "joe", "pw", "b", "m", "present"⟩
      [] [] (by decide) (by decide)).1⟩

/-- Claim C3, counterexample: the pull-request creation operation has
no 401 handling — a 401 response falls through to the generic error
branch, so the failure message is the remote payload's message behind
the creation prefix, not the access-denied auth-failure message the
claim requires of every operation. -/
theorem create_401_not_auth_mapped :
    (runM (createPullRequest "https://bb" "joe" "pw" "PRJ" "repo" "t" "d" "f" "m" false)
        [⟨401, Body.errorsBody [⟨"boom", none⟩]⟩]).1 =
      RunResult.failed "Unable to create the pull request. boom" false none ∧
    "Unable to create the pull request. boom" ≠ authMsg "joe" :=
  ⟨rfl, by decide⟩

/-- Claim C3 as amended: every operation except pull-request creation
maps a 401 response to the access-denied-verify-credentials failure
and a 403 response to the access-denied failure before reading the
body, with the pull-request delete 401 message carrying a trailing
period; pull-request creation has no 401/403 handling and reports both
through its generic remote-rejected branch with the server's own
message. -/
theorem auth_status_mapping_per_operation :
    ∀ (srv u pw pk rs t d sb db : String) (ig : Bool) (i v : Int)
      (bp : BranchParams) (b : Body) (m : String) (pe : Option ErrPR)
      (es : List RemoteError) (c : Bool) (rest : List Response)
      (tr : List Request) (w : List String),
      ((finish (getPullRequests srv u pw pk rs t ⟨c, ⟨401, b⟩ :: rest, tr, w⟩)).1 =
        RunResult.failed (authMsg u) false none) ∧
      ((finish (getPullRequests srv u pw pk rs t ⟨c, ⟨403, b⟩ :: rest, tr, w⟩)).1 =
        RunResult.failed (forbMsg u) false none) ∧
      ((finish (mergePullRequest srv u pw pk rs i v ⟨c, ⟨401, b⟩ :: rest, tr, w⟩)).1 =
        RunResult.failed (authMsg u) false none) ∧
      ((finish (mergePullRequest srv u pw pk rs i v ⟨c, ⟨403, b⟩ :: rest, tr, w⟩)).1 =
        RunResult.failed (forbMsg u) false none) ∧
      ((finish (deletePullRequest srv u pw pk rs i v ⟨c, ⟨401, b⟩ :: rest, tr, w⟩)).1 =
        RunResult.failed (delAuthMsg u) false none) ∧
      ((finish (deletePullRequest srv u pw pk rs i v ⟨c, ⟨403, b⟩ :: rest, tr, w⟩)).1 =
        RunResult.failed (forbMsg u) false none) ∧
      ((finish (approvePullRequest srv u pw pk rs i ⟨c, ⟨401, b⟩ :: rest, tr, w⟩)).1 =
        RunResult.failed (authMsg u) false none) ∧
      ((finish (approvePullRequest srv u pw pk rs i ⟨c, ⟨403, b⟩ :: rest, tr, w⟩)).1 =
        RunResult.failed (forbMsg u) false none) ∧
      ((finish (branchCreateStep bp ⟨c, ⟨401, b⟩ :: rest, tr, w⟩)).1 =
        RunResult.failed (authMsg bp.username) false none) ∧
      ((finish (branchCreateStep bp ⟨c, ⟨403, b⟩ :: rest, tr, w⟩)).1 =
        RunResult.failed (forbMsg bp.username) false none) ∧
      ((finish (branchDeleteStep bp ⟨c, ⟨401, b⟩ :: rest, tr, w⟩)).1 =
        RunResult.failed (authMsg bp.username) false none) ∧
      ((finish (branchDeleteStep bp ⟨c, ⟨403, b⟩ :: rest, tr, w⟩)).1 =
        RunResult.failed (forbMsg bp.username) false none) ∧
      ((finish (createPullRequest srv u pw pk rs t d sb db ig
          ⟨c, ⟨401, Body.errorsBody (⟨m, pe⟩ :: es)⟩ :: rest, tr, w⟩)).1 =
        RunResult.failed ("Unable to create the pull request. " ++ m) false none) ∧
      ((finish (createPullRequest srv u pw pk rs t d sb db ig
          ⟨c, ⟨403, Body.errorsBody (⟨m, pe⟩ :: es)⟩ :: rest, tr, w⟩)).1 =
        RunResult.failed ("Unable to create the pull request. " ++ m) false none) := by
  intro srv u pw pk rs t d sb db ig i v bp b m pe es c rest tr w
  exact ⟨rfl, rfl, rfl, rfl, rfl, rfl, rfl, rfl, rfl, rfl, rfl, rfl, rfl, rfl⟩

/-- Claim C8, counterexample: a 401 response to the branch deletion is
a failure, but its message is the locally built access-denied message,
not the remote error message the claim requires of every non-204
status. -/
theorem branch_delete_401_message_is_local :
    branchOutcome ⟨"https://bb", "PRJ", "repo", "joe", "pw", "feature/x", "main", "absent"⟩
        [⟨401, Body.errorsBody [⟨"boom", none⟩]⟩] =
      RunResult.failed (authMsg "joe") false none ∧
    authMsg "joe" ≠ "boom" ∧
    authMsg "joe" ≠ "Error deleting branch: " ++ "boom" :=
  ⟨rfl, by decide, by decide⟩

/-- Claim C8 as amended: with state=absent the branch module reports
changed=true exactly when the DELETE returns 204; every other status
is a failure — 401 and 403 with the locally built access-denied
messages, and any other status, 404 included, with the remote error
message — so deleting a nonexistent branch is never treated as
already-satisfied. -/
theorem branch_delete_status_mapping :
    ∀ (srv proj repo user pw br fb : String) (s : Int) (b : Body)
      (m : String) (pe : Option ErrPR) (es : List RemoteError) (rest : List Response),
      pyStartswith srv "https://" = true →
      ((branchOutcome ⟨srv, proj, repo, user, pw, br, fb, "absent"⟩ (⟨s, b⟩ :: rest) =
          RunResult.exited true ↔ s = 204) ∧
       (branchOutcome ⟨srv, proj, repo, user, pw, br, fb, "absent"⟩ (⟨401, b⟩ :: rest) =
          RunResult.failed (authMsg user) false none) ∧
       (branchOutcome ⟨srv, proj, repo, user, pw, br, fb, "absent"⟩ (⟨403, b⟩ :: rest) =
          RunResult.failed (forbMsg user) false none) ∧
       (s ≠ 204 → s ≠ 401 → s ≠ 403 →
         branchOutcome ⟨srv, proj, repo, user, pw, br, fb, "absent"⟩
             (⟨s, Body.errorsBody (⟨m, pe⟩ :: es)⟩ :: rest) =
           RunResult.failed ("Error deleting branch: " ++ m) false none)) := by
  intro srv proj repo user pw br fb s b m pe es rest hs
  have hpa : ("absent" : String) ≠ "present" := by decide
  refine ⟨⟨?_, ?_⟩, ?_, ?_, ?_⟩
  · intro hE
    by_contra h204
    by_cases h1 : s = 401
    · subst h1
      simp [branchOutcome, runBranch, runM, branchMain, branchDeleteStep, hs, hpa,
        mBind, mPure, failJson, fetchUrl, tryE, finish, initSt] at hE
    by_cases h3 : s = 403
    · subst h3
      simp [branchOutcome, runBranch, runM, branchMain, branchDeleteStep, hs, hpa,
        mBind, mPure, failJson, fetchUrl, tryE, finish, initSt] at hE
    rcases b with es' | vs | _
    · rcases es' with _ | ⟨e, es'⟩ <;>
        simp [branchOutcome, runBranch, runM, branchMain, branchDeleteStep, hs, hpa,
          h1, h3, h204, mBind, mPure, failJson, raiseExc, fetchUrl, tryE, finish, initSt,
          errFirstMsg, jsonLoads, errFirst] at hE
    · simp [branchOutcome, runBranch, runM, branchMain, branchDeleteStep, hs, hpa,
        h1, h3, h204, mBind, mPure, failJson, raiseExc, fetchUrl, tryE, finish, initSt,
        errFirstMsg, jsonLoads, errFirst] at hE
    · simp [branchOutcome, runBranch, runM, branchMain, branchDeleteStep, hs, hpa,
        h1, h3, h204, mBind, mPure, failJson, raiseExc, fetchUrl, tryE, finish, initSt,
        errFirstMsg, jsonLoads, errFirst] at hE
  · intro h204
    subst h204
    simp [branchOutcome, runBranch, runM, branchMain, branchDeleteStep, hs, hpa,
      mBind, mPure, setChanged, fetchUrl, tryE, finish, initSt]
  · simp [branchOutcome, runBranch, runM, branchMain, branchDeleteStep, hs, hpa,
      mBind, mPure, failJson, fetchUrl, tryE, finish, initSt]
  · simp [branchOutcome, runBranch, runM, branchMain, branchDeleteStep, hs, hpa,
      mBind, mPure, failJson, fetchUrl, tryE, finish, initSt]
  · intro h204 h1 h3
    simp [branchOutcome, runBranch, runM, branchMain, branchDeleteStep, hs, hpa,
      h204, h1, h3, mBind, mPure, failJson, fetchUrl, tryE, finish, initSt,
      errFirstMsg, jsonLoads, errFirst]

/-- Witness for branch_delete_status_mapping: a concrete 404 on a
nonexistent branch is a failure carrying the remote error message. -/
theorem branch_delete_status_mapping_witness :
    pyStartswith "https://bb" "https://" = true ∧
    branchOutcome ⟨"https://bb", "PRJ", "repo", "joe", "pw", "feature/x", "main", "absent"⟩
        [⟨404, Body.errorsBody [⟨"no such branch", none⟩]⟩] =
      RunResult.failed ("Error deleting branch: " ++ "no such branch") false none :=
  ⟨by decide,
    (branch_delete_status_mapping "https://bb" "PRJ" "repo" "joe" "pw" "feature/x" "main"
        404 (Body.errorsBody [⟨"no such branch", none⟩]) "no such branch" none [] []
        (by decide)).2.2.2 (by decide) (by decide) (by decide)⟩

/-- Claim C4: when a create receives 409 with ignore_existing_on_create
set, the engine deletes the conflicting pull request using the id and
version embedded in the 409 error payload and retries the create
exactly once: a 409 on the retried create is a fatal failure reported
with the server's message (not a further delete-and-recreate cycle), a
201 on the retry succeeds, and no run of the create step ever issues
more than two create requests. -/
theorem create_conflict_delete_and_retry_once :
    ∀ (srv u pw pk rs t d sb db m m2 : String) (i v : Int) (pe2 : Option ErrPR)
      (es es2 : List RemoteError) (b2 b3 : Body) (rest : List Response),
      ((runM (createPullRequest srv u pw pk rs t d sb db true)
          (⟨409, Body.errorsBody (⟨m, some ⟨i, v⟩⟩ :: es)⟩ :: ⟨204, b2⟩ ::
           ⟨409, Body.errorsBody (⟨m2, pe2⟩ :: es2)⟩ :: rest)).1 =
        RunResult.failed m2 true none) ∧
      ((runM (createPullRequest srv u pw pk rs t d sb db true)
          (⟨409, Body.errorsBody (⟨m, some ⟨i, v⟩⟩ :: es)⟩ :: ⟨204, b2⟩ ::
           ⟨409, Body.errorsBody (⟨m2, pe2⟩ :: es2)⟩ :: rest)).2.trace =
        [⟨Method.POST, createURL srv pk rs, some (ReqBody.createBody t d sb db)⟩,
         ⟨Method.DELETE, prDeleteURL srv pk rs i, some (ReqBody.versionBody v)⟩,
         ⟨Method.POST, createURL srv pk rs, some (ReqBody.createBody t d sb db)⟩]) ∧
      ((runM (createPullRequest srv u pw pk rs t d sb db true)
          (⟨409, Body.errorsBody (⟨m, some ⟨i, v⟩⟩ :: es)⟩ :: ⟨204, b2⟩ ::
           ⟨201, b3⟩ :: rest)).1 = RunResult.exited true) ∧
      (∀ (ig : Bool) (s : St),
        createCount ((createPullRequest srv u pw pk rs t d sb db ig s).1.trace) ≤
          createCount s.trace + 2) := by
  intro srv u pw pk rs t d sb db m m2 i v pe2 es es2 b2 b3 rest
  refine ⟨rfl, rfl, rfl, ?_⟩
  intro ig s
  cases ig with
  | false =>
    unfold createPullRequest
    rw [show (1000 : Nat) = Nat.succ 999 from rfl, createAux_false_trace,
      createCount_append]
    simp [createCount, isCreateReq]
  | true =>
    unfold createPullRequest
    rw [show (1000 : Nat) = Nat.succ 999 from rfl, createPullRequestAux.eq_2]
    rcases hp : s.pending with _ | ⟨⟨stat, b⟩, rest'⟩
    · simp [mBind, mPure, fetchUrl, hp, transportFail, errFirstMsg, jsonLoads,
        raiseExc, failJson, failJsonWith, createCount_append, createCount, isCreateReq]
    · by_cases h201 : stat = 201
      · subst h201
        simp [mBind, mPure, fetchUrl, hp, setChanged, warn, createCount_append,
          createCount, isCreateReq]
      · by_cases h409 : stat = 409
        · subst h409
          rcases b with es' | vs' | _
          · rcases es' with _ | ⟨e, es3⟩
            · simp [mBind, mPure, fetchUrl, hp, h201, errFirstMsg, jsonLoads, errFirst,
                raiseExc, createCount_append, createCount, isCreateReq]
            · rcases hpe : e.existingPullRequest with _ | ex
              · simp [mBind, mPure, fetchUrl, hp, h201, jsonLoads, errFirst, getExisting,
                  hpe, raiseExc, createCount_append, createCount, isCreateReq]
              · simp only [mBind, mPure, fetchUrl, hp, jsonLoads, errFirst, getExisting,
                  hpe, warn, Int.reduceEq, reduceIte, if_false, if_true,
                  Bool.false_eq_true, eq_self_iff_true]
                refine le_trans (delete_then_retry_count srv u pw pk rs t d sb db
                  ex.id ex.version _) ?_
                rw [createCount_append]
                simp [createCount, isCreateReq]
          · simp [mBind, mPure, fetchUrl, hp, h201, errFirstMsg, jsonLoads, errFirst,
              raiseExc, createCount_append, createCount, isCreateReq]
          · simp [mBind, mPure, fetchUrl, hp, h201, errFirstMsg, jsonLoads,
              raiseExc, createCount_append, createCount, isCreateReq]
        · rcases b with es' | vs' | _ <;> try rcases es' with _ | ⟨e, es3⟩
          all_goals
            simp [mBind, mPure, fetchUrl, hp, h201, h409, errFirstMsg, jsonLoads,
              errFirst, raiseExc, failJson, failJsonWith, createCount_append,
              createCount, isCreateReq]

/-- Claim C6: a merge invocation whose list response contains no
record matching the requested title, source and destination with state
OPEN fails with the not-found message, and its trace holds no merge
request — only the list GET (and, when a create action precedes the
merge, that create's POST). -/
theorem merge_without_match_is_not_found :
    ∀ (proj repo tb fb ttl desc auth user pw : String) (ig : Bool)
      (vs : List PRRecord) (rest : List Response) (b1 : Body),
      vs.filter (prMatches ttl fb tb) = [] →
      (prOutcome ⟨"https://bb", proj, repo, tb, fb, ttl, desc, auth, user, pw, ["merge"], ig⟩
          (⟨200, Body.listBody vs⟩ :: rest) =
        RunResult.failed (noMatchParamsMsg ttl) false none ∧
       prTrace ⟨"https://bb", proj, repo, tb, fb, ttl, desc, auth, user, pw, ["merge"], ig⟩
          (⟨200, Body.listBody vs⟩ :: rest) =
        [⟨Method.GET, listURL "https://bb" proj repo ttl, none⟩] ∧
       (∀ r ∈ prTrace ⟨"https://bb", proj, repo, tb, fb, ttl, desc, auth, user, pw,
          ["merge"], ig⟩ (⟨200, Body.listBody vs⟩ :: rest), isMergeReq r = false) ∧
       prOutcome ⟨"https://bb", proj, repo, tb, fb, ttl, desc, auth, user, pw,
          ["create", "merge"], ig⟩
          (⟨201, b1⟩ :: ⟨200, Body.listBody vs⟩ :: rest) =
        RunResult.failed (noMatchParamsMsg ttl) false none ∧
       (∀ r ∈ prTrace ⟨"https://bb", proj, repo, tb, fb, ttl, desc, auth, user, pw,
          ["create", "merge"], ig⟩ (⟨201, b1⟩ :: ⟨200, Body.listBody vs⟩ :: rest),
          isMergeReq r = false)) := by
  intro proj repo tb fb ttl desc auth user pw ig vs rest b1 h
  have hf : findPR vs ttl fb tb = none := by
    rw [findPR_eq_filter_head, h]
    rfl
  have hs : pyStartswith "https://bb" "https://" = true := rfl
  have hc1 : ((["merge"] : List String).contains "create") = false := rfl
  have hc2 : ((["merge"] : List String).contains "approve") = false := rfl
  have hc3 : ((["merge"] : List String).contains "merge") = true := rfl
  have hd1 : ((["create", "merge"] : List String).contains "create") = true := rfl
  have hd2 : ((["create", "merge"] : List String).contains "approve") = false := rfl
  have hd3 : ((["create", "merge"] : List String).contains "merge") = true := rfl
  refine ⟨?_, ?_, ?_, ?_, ?_⟩ <;>
    simp [prOutcome, prTrace, runPR, runM, prMain, mergeStep, getPullRequests,
      getValues, jsonLoads, createPullRequest, createPullRequestAux, mBind, mPure,
      failJson, setChanged, warn, fetchUrl, tryE, finish, initSt, hf, hs,
      hc1, hc2, hc3, hd1, hd2, hd3, isMergeReq]

/-- Witness for merge_without_match_is_not_found: a concrete empty
list response yields the not-found failure. -/
theorem merge_without_match_is_not_found_witness :
    ([] : List PRRecord).filter (prMatches "Release 1.2" "feature" "master") = [] ∧
    prOutcome ⟨"https://bb", "PRJ", "repo", "master", "feature", "Release 1.2", "d",
        "alice", "joe", "pw", ["merge"], false⟩ [⟨200, Body.listBody []⟩] =
      RunResult.failed (noMatchParamsMsg "Release 1.2") false none :=
  ⟨rfl,
    (merge_without_match_is_not_found "PRJ" "repo" "master" "feature" "Release 1.2"
      "d" "alice" "joe" "pw" false [] [] Body.malformed rfl).1⟩

/-- Claim C7: the merge request carries in its body the version token
of the record the finder resolved from this invocation's list
response, and the create-conflict delete request carries the id and
version embedded in this invocation's 409 error payload; every run
starts from the fresh initial state (runM applies the module body to
initSt), so no version token survives across invocations. -/
theorem version_tokens_from_current_invocation :
    ∀ (proj repo tb fb ttl desc auth user pw m : String) (ig : Bool)
      (vs : List PRRecord) (pr : PRRecord) (mr : Response) (i v : Int)
      (es : List RemoteError) (dresp : Response) (rest : List Response),
      findPR vs ttl fb tb = some pr →
      (prTrace ⟨"https://bb", proj, repo, tb, fb, ttl, desc, auth, user, pw, ["merge"], ig⟩
          [⟨200, Body.listBody vs⟩, mr] =
        [⟨Method.GET, listURL "https://bb" proj repo ttl, none⟩,
         ⟨Method.POST, mergeURL "https://bb" proj repo pr.id,
           some (ReqBody.versionBody pr.version)⟩] ∧
       ((createPullRequest "https://bb" user pw proj repo ttl desc fb tb true
           ⟨false, ⟨409, Body.errorsBody (⟨m, some ⟨i, v⟩⟩ :: es)⟩ :: dresp :: rest,
            [], []⟩).1.trace).take 2 =
        [⟨Method.POST, createURL "https://bb" proj repo,
           some (ReqBody.createBody ttl desc fb tb)⟩,
         ⟨Method.DELETE, prDeleteURL "https://bb" proj repo i,
           some (ReqBody.versionBody v)⟩]) := by
  intro proj repo tb fb ttl desc auth user pw m ig vs pr mr i v es dresp rest h
  have hs : pyStartswith "https://bb" "https://" = true := rfl
  have hc1 : ((["merge"] : List String).contains "create") = false := rfl
  have hc2 : ((["merge"] : List String).contains "approve") = false := rfl
  have hc3 : ((["merge"] : List String).contains "merge") = true := rfl
  constructor
  · rw [prTrace_eq]
    have h0 : ((prMain ⟨"https://bb", proj, repo, tb, fb, ttl, desc, auth, user, pw,
        ["merge"], ig⟩) (initSt [⟨200, Body.listBody vs⟩, mr])).1 =
        ((mergeStep ⟨"https://bb", proj, repo, tb, fb, ttl, desc, auth, user, pw,
          ["merge"], ig⟩) (initSt [⟨200, Body.listBody vs⟩, mr])).1 := by
      simp only [prMain, mBind, mPure, hc1, hc2, hc3, hs, Bool.false_eq_true,
        Bool.true_eq_false, if_false, reduceIte]
      exact tryE_failJson_state _ _ _
    rw [h0]
    have hg : getPullRequests "https://bb" user pw proj repo ttl
        (initSt [⟨200, Body.listBody vs⟩, mr]) =
        (⟨false, [mr], [⟨Method.GET, listURL "https://bb" proj repo ttl, none⟩], []⟩,
         Except.ok (Body.listBody vs)) := rfl
    simp only [mergeStep, mBind, hg, mPure, getValues, h]
    rw [mergePullRequest_trace]
    rfl
  · have key : ∀ s : St, s.pending = dresp :: rest →
        s.trace = [⟨Method.POST, createURL "https://bb" proj repo,
          some (ReqBody.createBody ttl desc fb tb)⟩] →
        (((mBind (deletePullRequest "https://bb" user pw proj repo i v)
            (fun _ => createPullRequestAux "https://bb" user pw proj repo ttl desc fb tb
              999 false)) s).1.trace).take 2 =
        [⟨Method.POST, createURL "https://bb" proj repo,
           some (ReqBody.createBody ttl desc fb tb)⟩,
         ⟨Method.DELETE, prDeleteURL "https://bb" proj repo i,
           some (ReqBody.versionBody v)⟩] := by
      intro s hp htr
      have hd := deletePullRequest_trace "https://bb" user pw proj repo i v s
      unfold mBind
      rcases hdel : deletePullRequest "https://bb" user pw proj repo i v s with ⟨s3, res⟩
      rw [hdel] at hd
      rcases res with e | a
      · simp only at hd ⊢
        rw [hd, htr]
        rfl
      · simp only at hd ⊢
        rw [show (999 : Nat) = Nat.succ 998 from rfl]
        rw [createAux_false_trace "https://bb" user pw proj repo ttl desc fb tb 998 s3,
          hd, htr]
        rfl
    unfold createPullRequest
    rw [show (1000 : Nat) = Nat.succ 999 from rfl]
    rw [createPullRequestAux.eq_2]
    simp only [mBind, mPure, fetchUrl, jsonLoads, errFirst, getExisting, warn,
      Int.reduceEq, reduceIte, if_false, if_true, Bool.false_eq_true, eq_self_iff_true]
    exact key _ rfl rfl

/-- Witness for version_tokens_from_current_invocation: a concrete
resolved pull request with version 5 yields a merge request carrying
version 5. -/
theorem version_tokens_from_current_invocation_witness :
    findPR [⟨42, 5, "OPEN", "Release 1.2", ⟨"feature"⟩, ⟨"master"⟩⟩]
        "Release 1.2" "feature" "master" =
      some ⟨42, 5, "OPEN", "Release 1.2", ⟨"feature"⟩, ⟨"master"⟩⟩ ∧
    prTrace ⟨"https://bb", "PRJ", "repo", "master", "feature", "Release 1.2", "d",
        "alice", "joe", "pw", ["merge"], false⟩
        [⟨200, Body.listBody [⟨42, 5, "OPEN", "Release 1.2", ⟨"feature"⟩, ⟨"master"⟩⟩]⟩,
         ⟨200, Body.malformed⟩] =
      [⟨Method.GET, listURL "https://bb" "PRJ" "repo" "Release 1.2", none⟩,
       ⟨Method.POST, mergeURL "https://bb" "PRJ" "repo" 42,
         some (ReqBody.versionBody 5)⟩] :=
  ⟨rfl,
    (version_tokens_from_current_invocation "PRJ" "repo" "master" "feature"
      "Release 1.2" "d" "alice" "joe" "pw" "msg" false
      [⟨42, 5, "OPEN", "Release 1.2", ⟨"feature"⟩, ⟨"master"⟩⟩]
      ⟨42, 5, "OPEN", "Release 1.2", ⟨"feature"⟩, ⟨"master"⟩⟩
      ⟨200, Body.malformed⟩ 7 3 [] ⟨200, Body.malformed⟩ [] rfl).1⟩

/-- Claim C10: when the requested actions include approve (and not
create, so the approve block runs first) and the finder resolves a
matching OPEN pull request, the approve block evaluates the name
headers, which is not bound in main's scope, so the invocation fails
through the per-action handler with the Approve PR error message, the
trace holds only the list GET (no approval request is issued), and
changed stays false. -/
theorem approve_block_unbound_headers :
    ∀ (proj repo tb fb ttl desc auth user pw : String) (ig : Bool)
      (acts : List String) (vs : List PRRecord) (pr : PRRecord) (rest : List Response),
      acts.contains "create" = false →
      acts.contains "approve" = true →
      findPR vs ttl fb tb = some pr →
      (mainLocals.contains "headers" = false ∧
       prOutcome ⟨"https://bb", proj, repo, tb, fb, ttl, desc, auth, user, pw, acts, ig⟩
           (⟨200, Body.listBody vs⟩ :: rest) =
         RunResult.failed ("Approve PR error: " ++ excMsg (PyExc.nameError "headers"))
           false none ∧
       prTrace ⟨"https://bb", proj, repo, tb, fb, ttl, desc, auth, user, pw, acts, ig⟩
           (⟨200, Body.listBody vs⟩ :: rest) =
         [⟨Method.GET, listURL "https://bb" proj repo ttl, none⟩]) := by
  intro proj repo tb fb ttl desc auth user pw ig acts vs pr rest h1 h2 h3
  have h1m : "create" ∉ acts := by simpa using h1
  have h2m : "approve" ∈ acts := by simpa using h2
  have hh : "headers" ∉ mainLocals := by decide
  have hs : pyStartswith "https://bb" "https://" = true := by decide
  refine ⟨by decide, ?_, ?_⟩ <;>
    simp [prOutcome, prTrace, runPR, runM, prMain, h1m, h2m, h3, approveStep,
      getPullRequests, getValues, jsonLoads, fetchUrl, loadName, tryE, mBind, mPure,
      failJson, raiseExc, finish, initSt, hh, hs]

/-- Witness for approve_block_unbound_headers at a concrete matching
pull request. -/
theorem approve_block_unbound_headers_witness :
    findPR [⟨42, 5, "OPEN", "Release 1.2", ⟨"feature"⟩, ⟨"master"⟩⟩]
        "Release 1.2" "feature" "master" =
      some ⟨42, 5, "OPEN", "Release 1.2", ⟨"feature"⟩, ⟨"master"⟩⟩ ∧
    prOutcome ⟨"https://bb", "PRJ", "repo", "master", "feature", "Release 1.2", "d",
        "alice", "joe", "pw", ["approve"], false⟩
        [⟨200, Body.listBody [⟨42, 5, "OPEN", "Release 1.2", ⟨"feature"⟩, ⟨"master"⟩⟩]⟩] =
      RunResult.failed ("Approve PR error: " ++ excMsg (PyExc.nameError "headers"))
        false none :=
  ⟨by decide,
    (approve_block_unbound_headers "PRJ" "repo" "master" "feature" "Release 1.2" "d"
      "alice" "joe" "pw" false ["approve"]
      [⟨42, 5, "OPEN", "Release 1.2", ⟨"feature"⟩, ⟨"master"⟩⟩]
      ⟨42, 5, "OPEN", "Release 1.2", ⟨"feature"⟩, ⟨"master"⟩⟩ []
      (by decide) (by decide) (by decide)).2.1⟩

end Bitbucket
